import Mathlib

/-!
Verification of the gdep supervisor core (src/main.rs, src/config.rs,
src/errors.rs) against its natural-language specification.

The git library (git2), the filesystem and the YAML parser are external
collaborators: each fallible call the source makes is modelled as an
environment field of type `Except GitErr _` (or a lookup function for the
filesystem), and the source functions are translated as pure functions of
those environments.  Machine integers (`usize`) are modelled as `Nat`;
`git2::ErrorCode` is modelled as a `Nat` tag since the source only stores
and prints it.
-/

deriving instance DecidableEq for Except

/-- Model of git2::Error: the source only ever reads `message()`/`to_string()`
and `code()` from it. -/
structure GitErr where
  message : String
  code : Nat
deriving DecidableEq, Repr

/-- ConfigError from src/config.rs lines 23-29.  Note that
`ScriptFileNotFound` is a unit variant: it carries no payload. -/
inductive ConfigError
| ConfigFileNotFound
| ScriptFileNotFound
| ParsingFailed (err : String)
| MissingContent (c : String)
deriving DecidableEq, Repr

/-- Display impl for ConfigError, src/config.rs lines 30-47. -/
def ConfigError.message : ConfigError → String
| .ConfigFileNotFound => "Config file not found"
| .ScriptFileNotFound => "Script file not found"
| .ParsingFailed err => "Parsing failed: " ++ err
| .MissingContent c => "Missing mandatory property: " ++ c

/-- GdepError from src/errors.rs lines 5-17. -/
inductive GdepError
| LocalRepoNotFound (path : String)
| RemoteRepoNotFound (url : String)
| ConfigLoadError (err : ConfigError)
| BranchInferFailed
| GitError (msg : String) (code : Nat)
| UpdateErrorRepoAhead (ahead : Nat)
| UpdateErrorAheadBehind (ahead behind : Nat)
| UpdateFailed (msg : String) (code : Nat)
deriving DecidableEq, Repr

/-- From<git2::Error> for GdepError, src/errors.rs lines 42-46. -/
def GdepError.fromGit (e : GitErr) : GdepError := .GitError e.message e.code

/-- RepoLike from src/config.rs lines 6-10. -/
inductive RepoLike
| Remote (url : String)
| Local (path : String)
| Remote2 (url path : String)
deriving DecidableEq, Repr

/-- Config from src/config.rs lines 12-21. -/
structure Config where
  name : String
  re_run : Bool
  restart_after_update : Bool
  exit_on_script_error : Bool
  exit_on_gdep_error : Bool
  script : String
  repo : RepoLike
  cleanup : Option String
deriving DecidableEq, Repr

/-- UpdateRelationState from src/main.rs lines 84-90. -/
inductive UpdateRelationState
| Up2Date
| Ahead (n : Nat)
| Behind (n : Nat)
| AheadBehind (a b : Nat)
deriving DecidableEq, Repr

/-- An opened repository handle; the source treats it as opaque, so only an
identity is modelled. -/
structure Repo where
  id : Nat
deriving DecidableEq, Repr

/-- Environment for one call of repo_update_cycle (src/main.rs lines
201-215): the results of the four fallible git calls it makes, in source
order (fetch_updates2, head().peel_to_commit(), find_reference of the
remote-tracking branch, graph_ahead_behind). -/
structure CycleEnv where
  fetchRes : Except GitErr Unit
  headRes : Except GitErr Unit
  remoteBranchRes : Except GitErr Unit
  graphAheadBehind : Except GitErr (Nat × Nat)

/-- repo_update_cycle, src/main.rs lines 201-215.  The final match on the
ahead/behind pair is translated arm for arm, in source order. -/
def repo_update_cycle (env : CycleEnv) : Except GitErr UpdateRelationState :=
  match env.fetchRes with
  | .error e => .error e
  | .ok _ =>
  match env.headRes with
  | .error e => .error e
  | .ok _ =>
  match env.remoteBranchRes with
  | .error e => .error e
  | .ok _ =>
  match env.graphAheadBehind with
  | .error e => .error e
  | .ok ab =>
    .ok (match ab with
      | (0, 0) => .Up2Date
      | (ahead, 0) => .Ahead ahead
      | (0, behind) => .Behind behind
      | (ahead, behind) => .AheadBehind ahead behind)

/-- get_repo, src/main.rs lines 293-310.  `openRes` and `cloneRes` are the
outcomes the git library would produce for Repository::open(repo_path) and
Repository::clone(url, repo_path). -/
def get_repo (openRes : Except GitErr Repo) (cloneRes : Except GitErr Repo)
    (repo_path : String) (repo_url : Option String) : Except GdepError Repo :=
  match openRes with
  | .ok repo => .ok repo
  | .error _ =>
    match repo_url with
    | none => .error (.LocalRepoNotFound repo_path)
    | some url =>
      match cloneRes with
      | .ok repo => .ok repo
      | .error _ => .error (.RemoteRepoNotFound url)

/-- Model of Rust's str::ends_with, on the character lists of the strings. -/
def strEndsWith (s pat : String) : Bool := pat.data.isSuffixOf s.data

/-- Characters after the last '/' of the input, accumulator style: models
`name.split('/').last().unwrap()` from src/main.rs line 186. -/
def splitLast : List Char → List Char → List Char
| [], acc => acc
| c :: cs, acc => if c = '/' then splitLast cs [] else splitLast cs (acc ++ [c])

/-- Short branch name: `split('/').last().unwrap()` on the full name. -/
def lastComponent (s : String) : String := ⟨splitLast s.data []⟩

/-- Loop body of get_default_branch, src/main.rs lines 182-190: each list
entry models one `branch` item of the iterator, where `.error` is a failure
of the per-item `branch?` or `branch.name()?` call and the Option is the
branch's name.  Returns the first short name whose full name ends in
`/main` or `/master`. -/
def findBranch : List (Except GitErr (Option String)) → Except GdepError (Option String)
| [] => .ok none
| .error e :: _ => .error (GdepError.fromGit e)
| .ok none :: rest => findBranch rest
| .ok (some name) :: rest =>
  if strEndsWith name "/main" || strEndsWith name "/master" then
    .ok (some (lastComponent name))
  else findBranch rest

/-- get_default_branch, src/main.rs lines 177-199; `branches` is the result
of repo.branches(Some(BranchType::Remote)). -/
def get_default_branch (branches : Except GitErr (List (Except GitErr (Option String)))) :
    Except GdepError String :=
  match branches with
  | .error e => .error (GdepError.fromGit e)
  | .ok items =>
    match findBranch items with
    | .error e => .error e
    | .ok none => .error .BranchInferFailed
    | .ok (some fb) => .ok fb

/-- The branch-selection expression of run, src/main.rs line 338:
`matches.get_one("branch").and_then(clone).or(Some(get_default_branch(&repo)?)).unwrap()`.
Rust's `Option::or` takes its argument by value, so the argument expression
`Some(get_default_branch(&repo)?)` — including the `?` — is evaluated
before `or` runs, whether or not the override is present. -/
def branchSelect (override : Option String)
    (branches : Except GitErr (List (Except GitErr (Option String)))) :
    Except GdepError String :=
  match get_default_branch branches with
  | .error e => .error e
  | .ok fb => .ok (override.getD fb)

/-- C2 (code bug): the claim says that with a CLI --branch override present,
default_branch is never called.  In src/main.rs line 338 the override is
combined with the inferred branch through Rust's eager `Option::or`, so
`get_default_branch` runs on every invocation; when no remote-tracking
branch ends in /main or /master its BranchInferFailed error aborts the run
even though an override was given.  When inference does succeed, the
override still wins, and without an override the inferred name is used. -/
theorem branch_override_still_infers :
    branchSelect (some "dev") (.ok []) = .error .BranchInferFailed ∧
    branchSelect (some "dev") (.ok [.ok (some "origin/main")]) = .ok "dev" ∧
    branchSelect none (.ok [.ok (some "origin/main")]) = .ok "main" := by
  decide

/-- C4 (confirmed): when the fetch-and-classify step computes ahead/behind
counts (a, b), the cycle result is `AheadBehind a b` exactly when both
counts are positive, and whenever either count is zero the result is
`Up2Date`, `Ahead a`, or `Behind b`. -/
theorem repo_update_cycle_diverged (env : CycleEnv) (a b : Nat)
    (hf : env.fetchRes = .ok ()) (hh : env.headRes = .ok ())
    (hr : env.remoteBranchRes = .ok ())
    (hab : env.graphAheadBehind = .ok (a, b)) :
    (repo_update_cycle env = .ok (.AheadBehind a b) ↔ (0 < a ∧ 0 < b)) ∧
    ((a = 0 ∨ b = 0) →
      repo_update_cycle env = .ok .Up2Date ∨
      repo_update_cycle env = .ok (.Ahead a) ∨
      repo_update_cycle env = .ok (.Behind b)) := by
  simp only [repo_update_cycle, hf, hh, hr, hab]
  rcases a with _ | a <;> rcases b with _ | b <;> simp

/-- Witness for repo_update_cycle_diverged at the concrete counts (2, 3). -/
theorem repo_update_cycle_diverged_witness :
    (repo_update_cycle ⟨.ok (), .ok (), .ok (), .ok (2, 3)⟩ =
        .ok (.AheadBehind 2 3) ↔ (0 < 2 ∧ 0 < 3)) ∧
    ((2 = 0 ∨ 3 = 0) →
      repo_update_cycle ⟨.ok (), .ok (), .ok (), .ok (2, 3)⟩ = .ok .Up2Date ∨
      repo_update_cycle ⟨.ok (), .ok (), .ok (), .ok (2, 3)⟩ = .ok (.Ahead 2) ∨
      repo_update_cycle ⟨.ok (), .ok (), .ok (), .ok (2, 3)⟩ = .ok (.Behind 3)) :=
  repo_update_cycle_diverged ⟨.ok (), .ok (), .ok (), .ok (2, 3)⟩ 2 3 rfl rfl rfl rfl

/-- C8 (confirmed): open-or-clone behaviour of get_repo.  If open succeeds
the opened repo is returned and the clone outcome is irrelevant (no clone is
consulted); if open fails with no URL, the error is LocalRepoNotFound with
the path; if open fails, a URL is present and the clone also fails, the
error is RemoteRepoNotFound with the URL. -/
theorem get_repo_spec (r : Repo) (e e' : GitErr)
    (clone1 clone2 : Except GitErr Repo) (p u : String) :
    (get_repo (.ok r) clone1 p (some u) = .ok r ∧
     get_repo (.ok r) clone2 p none = .ok r ∧
     get_repo (.ok r) clone1 p (some u) = get_repo (.ok r) clone2 p (some u)) ∧
    get_repo (.error e) clone1 p none = .error (.LocalRepoNotFound p) ∧
    get_repo (.error e) (.error e') p (some u) = .error (.RemoteRepoNotFound u) :=
  ⟨⟨rfl, rfl, rfl⟩, rfl, rfl⟩

/-- Model of Rust's std::path::Path::is_absolute on Unix: the path begins
with a separator. -/
def pathIsAbsolute (p : String) : Bool :=
  match p.data with
  | '/' :: _ => true
  | _ => false

/-- Model of Rust's Path::parent for normalized paths (no trailing
separator): the portion before the final '/', `none` for the empty path and
for the root, `some ""` for a bare file name, `some "/"` for a file directly
under the root. -/
def pathParent (p : String) : Option String :=
  if p.data = [] ∨ p.data = ['/'] then none
  else
    match p.data.reverse.dropWhile (fun c => c ≠ '/') with
    | [] => some ""
    | ['/'] => some "/"
    | _ :: rest => some ⟨rest.reverse⟩

/-- Model of Rust's PathBuf::push for a non-empty base: an absolute `other`
replaces the base, otherwise `other` is appended behind a separator. -/
def pathPush (base other : String) : String :=
  if pathIsAbsolute other then other
  else if base = "" then other
  else if base.data.getLast? = some '/' then base ++ other
  else base ++ "/" ++ other

/-- resolve_other_path, src/config.rs lines 49-57: an absolute `other`
passes through unchanged; a relative one is pushed onto
`original.parent().unwrap_or(Path::new(""))`. -/
def resolve_other_path (original other : String) : String :=
  if pathIsAbsolute other then other
  else pathPush ((pathParent original).getD "") other

/-- Yaml values as far as the loader inspects them (yaml_rust2::Yaml):
indexing a missing key yields BadValue; `as_str`/`as_bool` succeed only on
the matching variant. -/
inductive Yaml
| str (s : String)
| bool (b : Bool)
| badValue
deriving DecidableEq, Repr

def Yaml.as_str : Yaml → Option String
| .str s => some s
| _ => none

def Yaml.as_bool : Yaml → Option Bool
| .bool b => some b
| _ => none

/-- A parsed YAML document, as the key-indexing function the loader uses. -/
def YamlDoc := String → Yaml

/-- ld_yaml_docs, src/config.rs lines 59-62.  `fs` models
std::fs::read_to_string (None = unreadable); `parse` models
YamlLoader::load_from_str with its error text. -/
def ld_yaml_docs (fs : String → Option String)
    (parse : String → Except String (List YamlDoc)) (path : String) :
    Except ConfigError (List YamlDoc) :=
  match fs path with
  | none => .error .ConfigFileNotFound
  | some content =>
    match parse content with
    | .error e => .error (.ParsingFailed e)
    | .ok docs => .ok docs

/-- ld_script_file, src/config.rs lines 64-67. -/
def ld_script_file (fs : String → Option String) (cfg_path script_path : String) :
    Except ConfigError String :=
  match fs (resolve_other_path cfg_path script_path) with
  | some c => .ok c
  | none => .error .ScriptFileNotFound

/-- Config::load_from_file, src/config.rs lines 70-123, translated
statement for statement.  The source reads `script_use_file` twice into
`inst_file1`/`inst_file2`; both reads are kept.  The source indexes
`docs[0]`, which panics on an empty document list; the model substitutes
the all-missing document there, a case no claim exercises. -/
def Config.load_from_file (fs : String → Option String)
    (parse : String → Except String (List YamlDoc)) (path : String) :
    Except ConfigError Config :=
  match ld_yaml_docs fs parse path with
  | .error e => .error e
  | .ok docs =>
  let doc := docs.headD (fun _ => Yaml.badValue)
  let run_is_final := ((doc "final").as_bool).getD false
  let inst_file1 := ((doc "script_use_file").as_bool).getD false
  let inst_file2 := ((doc "script_use_file").as_bool).getD false
  let restart_after_update := ((doc "restart_update").as_bool).getD false
  let exit_on_gdep_error := !(((doc "gdep_err_ignore").as_bool).getD false)
  let exit_on_script_error := !(((doc "script_err_ignore").as_bool).getD false)
  let local_repo := ((doc "local_repo").as_bool).getD false
  match (doc "name").as_str with
  | none => .error (.MissingContent "name")
  | some nm =>
  match (doc (if inst_file1 then "file_path" else "script")).as_str with
  | none => .error (.MissingContent "script")
  | some sc =>
  match (doc "repo").as_str with
  | none => .error (.MissingContent "repo")
  | some rp =>
  let repoL := if local_repo then RepoLike.Local rp
    else match (doc "into_path").as_str with
      | none => RepoLike.Remote rp
      | some ip => RepoLike.Remote2 rp ip
  match (if inst_file1 then ld_script_file fs path sc else .ok sc) with
  | .error e => .error e
  | .ok installation =>
  match (match (doc (if inst_file2 then "cleanup_file_path" else "cleanup")).as_str with
         | none => Except.ok none
         | some cl =>
           if inst_file2 then (ld_script_file fs path cl).map some
           else .ok (some cl)) with
  | .error e => .error e
  | .ok cleanupV =>
  .ok { name := nm, re_run := !run_is_final, restart_after_update := restart_after_update,
        exit_on_script_error := exit_on_script_error,
        exit_on_gdep_error := exit_on_gdep_error,
        script := installation, cleanup := cleanupV, repo := repoL }

/-- C5 (amended): a config document with script_use_file: true whose
file_path target cannot be read makes Config::load_from_file fail with
ScriptFileNotFound.  (The error is a unit variant: it does not carry the
attempted path.) -/
theorem load_missing_script_file (fs : String → Option String)
    (parse : String → Except String (List YamlDoc)) (path content : String)
    (doc : YamlDoc) (nm sp rp : String)
    (h1 : fs path = some content)
    (h2 : parse content = .ok [doc])
    (h3 : (doc "name").as_str = some nm)
    (h4 : (doc "script_use_file").as_bool = some true)
    (h5 : (doc "file_path").as_str = some sp)
    (h6 : (doc "repo").as_str = some rp)
    (h7 : fs (resolve_other_path path sp) = none) :
    Config.load_from_file fs parse path = .error .ScriptFileNotFound := by
  simp [Config.load_from_file, ld_yaml_docs, ld_script_file, h1, h2, h3, h4, h5, h6, h7]

/-- Doc of a config whose script file reference cannot be read. -/
def docW : YamlDoc := fun k =>
  if k = "name" then .str "x"
  else if k = "script_use_file" then .bool true
  else if k = "file_path" then .str "run.sh"
  else if k = "repo" then .str "r"
  else .badValue

/-- Filesystem holding only the config file, not the script file. -/
def fsW : String → Option String := fun p =>
  if p = "gdep.yaml" then some "cfgtext" else none

/-- Parser for the single config text of the witness scenario. -/
def parseW : String → Except String (List YamlDoc) := fun c =>
  if c = "cfgtext" then .ok [docW] else .error "bad"

/-- Witness for load_missing_script_file at a concrete scenario. -/
theorem load_missing_script_file_witness :
    Config.load_from_file fsW parseW "gdep.yaml" = .error .ScriptFileNotFound :=
  load_missing_script_file fsW parseW "gdep.yaml" "cfgtext" docW "x" "run.sh" "r"
    rfl rfl rfl rfl rfl rfl rfl

/-- Doc referencing script file s1.sh. -/
def docA : YamlDoc := fun k =>
  if k = "name" then .str "x"
  else if k = "script_use_file" then .bool true
  else if k = "file_path" then .str "s1.sh"
  else if k = "repo" then .str "r"
  else .badValue

/-- Doc referencing script file s2.sh. -/
def docB : YamlDoc := fun k =>
  if k = "name" then .str "x"
  else if k = "script_use_file" then .bool true
  else if k = "file_path" then .str "s2.sh"
  else if k = "repo" then .str "r"
  else .badValue

/-- Filesystem with two config files and neither script file. -/
def fsC5 : String → Option String := fun p =>
  if p = "a.yaml" then some "cfg-a"
  else if p = "b.yaml" then some "cfg-b"
  else none

/-- Parser mapping the two config texts to their documents. -/
def parseC5 : String → Except String (List YamlDoc) := fun c =>
  if c = "cfg-a" then .ok [docA]
  else if c = "cfg-b" then .ok [docB]
  else .error "bad"

/-- C5 (counterexample): the claim says the ScriptFileNotFound error
carries the attempted path.  Two loads whose attempted script paths differ
produce the identical error value, and its display text is the constant
"Script file not found": the error carries no path at all
(src/config.rs lines 26, 36-38). -/
theorem script_file_error_carries_no_path :
    Config.load_from_file fsC5 parseC5 "a.yaml" = .error .ScriptFileNotFound ∧
    Config.load_from_file fsC5 parseC5 "b.yaml" = .error .ScriptFileNotFound ∧
    resolve_other_path "a.yaml" "s1.sh" ≠ resolve_other_path "b.yaml" "s2.sh" ∧
    ConfigError.message .ScriptFileNotFound = "Script file not found" := by
  decide

/-- C9 (confirmed): a script or cleanup file reference is loaded through
ld_script_file (src/config.rs lines 108 and 110 both pass the config file
path): an absolute reference is read at its own path unchanged, a relative
one at the reference pushed onto the config file's parent directory.  No
process working directory enters the computation. -/
theorem script_paths_resolved_against_config_dir (fs : String → Option String)
    (cfg sp : String) :
    (pathIsAbsolute sp = true →
      ld_script_file fs cfg sp =
        (match fs sp with
         | some c => Except.ok c
         | none => Except.error ConfigError.ScriptFileNotFound)) ∧
    (pathIsAbsolute sp = false →
      ld_script_file fs cfg sp =
        (match fs (pathPush ((pathParent cfg).getD "") sp) with
         | some c => Except.ok c
         | none => Except.error ConfigError.ScriptFileNotFound)) := by
  constructor <;> intro h <;> simp [ld_script_file, resolve_other_path, h]

/-- Filesystem for the C9 witness: the script lives next to the config. -/
def fsC9 : String → Option String := fun p =>
  if p = "conf/run.sh" then some "echo hi" else none

/-- Witness for script_paths_resolved_against_config_dir at a relative
reference next to a config in directory conf. -/
theorem script_paths_resolved_witness :
    (pathIsAbsolute "run.sh" = true →
      ld_script_file fsC9 "conf/gdep.yaml" "run.sh" =
        (match fsC9 "run.sh" with
         | some c => Except.ok c
         | none => Except.error ConfigError.ScriptFileNotFound)) ∧
    (pathIsAbsolute "run.sh" = false →
      ld_script_file fsC9 "conf/gdep.yaml" "run.sh" =
        (match fsC9 (pathPush ((pathParent "conf/gdep.yaml").getD "") "run.sh") with
         | some c => Except.ok c
         | none => Except.error ConfigError.ScriptFileNotFound)) :=
  script_paths_resolved_against_config_dir fsC9 "conf/gdep.yaml" "run.sh"

/-- An event on the updater channel, src/main.rs line 38: the
`(Option<GdepError>, bool)` pair, the bool being the terminal flag. -/
abbrev Event := Option GdepError × Bool

/-- The while loop of update_sync, src/main.rs lines 44-75.  `stop i` is
the value the stop-flag read yields at the start of iteration i; `cycleEnv
i` is the git environment of iteration i's repo_update_cycle; `upd i` is
the result update_repo would produce on iteration i.  Returns the events
sent inside the loop together with the `err` value at loop exit, or `none`
when the trace does not terminate within `fuel` iterations. -/
def updateSyncLoop (stop : Nat → Bool) (cycleEnv : Nat → CycleEnv)
    (upd : Nat → Except GitErr Unit) : Nat → Nat → Option (List Event × Option GdepError)
| 0, _ => none
| fuel+1, i =>
  if stop i then some ([], none)
  else
    match repo_update_cycle (cycleEnv i) with
    | .error e => some ([(none, false)], some (GdepError.fromGit e))
    | .ok .Up2Date =>
      (updateSyncLoop stop cycleEnv upd fuel (i+1)).map
        (fun r => (((none : Option GdepError), false) :: r.1, r.2))
    | .ok (.Ahead a) => some ([(none, false)], some (.UpdateErrorRepoAhead a))
    | .ok (.Behind _) =>
      match upd i with
      | .error e => some ([(none, false)], some (.UpdateFailed e.message e.code))
      | .ok _ => some ([(none, false)], none)
    | .ok (.AheadBehind a b) => some ([(none, false)], some (.UpdateErrorAheadBehind a b))

/-- update_sync, src/main.rs lines 38-82: when the repository opens, run
the loop and finish with the terminal `(err, true)` send of line 81; when
it does not open, the loop is skipped and the terminal is sent with
`err = None`. -/
def update_sync (repoOpenOk : Bool) (fuel : Nat) (stop : Nat → Bool)
    (cycleEnv : Nat → CycleEnv) (upd : Nat → Except GitErr Unit) : Option (List Event) :=
  if repoOpenOk then
    (updateSyncLoop stop cycleEnv upd fuel 0).map (fun r => r.1 ++ [(r.2, true)])
  else some [(none, true)]

/-- Every event the loop body sends is the non-terminal heartbeat
`(None, false)` of src/main.rs line 45. -/
theorem updateSyncLoop_heartbeats (stop : Nat → Bool) (cycleEnv : Nat → CycleEnv)
    (upd : Nat → Except GitErr Unit) :
    ∀ fuel i evs err, updateSyncLoop stop cycleEnv upd fuel i = some (evs, err) →
      ∀ e ∈ evs, e = ((none : Option GdepError), false) := by
  intro fuel
  induction fuel with
  | zero =>
    intro i evs err h
    simp [updateSyncLoop] at h
  | succ n ih =>
    intro i evs err h
    rw [updateSyncLoop] at h
    by_cases hs : stop i
    · rw [if_pos hs] at h
      simp only [Option.some.injEq, Prod.mk.injEq] at h
      rcases h with ⟨h1, -⟩
      subst h1
      intro e he
      cases he
    · rw [if_neg hs] at h
      rcases hcyc : repo_update_cycle (cycleEnv i) with e₀ | urs <;> rw [hcyc] at h
      · simp only [Option.some.injEq, Prod.mk.injEq] at h
        rcases h with ⟨h1, -⟩
        subst h1
        intro e he
        simpa using he
      · cases urs with
        | Up2Date =>
          rcases hrec : updateSyncLoop stop cycleEnv upd n (i+1) with - | ⟨l, er⟩ <;>
            rw [hrec] at h
          · simp at h
          · simp only [Option.map_some', Option.some.injEq, Prod.mk.injEq] at h
            rcases h with ⟨h1, -⟩
            subst h1
            intro e he
            rcases List.mem_cons.mp he with rfl | he'
            · rfl
            · exact ih (i+1) l er hrec e he'
        | Ahead a =>
          simp only [Option.some.injEq, Prod.mk.injEq] at h
          rcases h with ⟨h1, -⟩
          subst h1
          intro e he
          simpa using he
        | Behind b =>
          rcases hupd : upd i with e₀ | u <;> rw [hupd] at h <;>
            simp only [Option.some.injEq, Prod.mk.injEq] at h <;>
            rcases h with ⟨h1, -⟩ <;> subst h1 <;> intro e he <;> simpa using he
        | AheadBehind a b =>
          simp only [Option.some.injEq, Prod.mk.injEq] at h
          rcases h with ⟨h1, -⟩
          subst h1
          intro e he
          simpa using he

/-- C3 (confirmed): in every terminating execution of update_sync, exactly
one event with terminal = true is sent, it is the last event sent, and
every event before it is the non-terminal heartbeat (None, false). -/
theorem update_sync_terminal_last (ro : Bool) (fuel : Nat) (stop : Nat → Bool)
    (cycleEnv : Nat → CycleEnv) (upd : Nat → Except GitErr Unit) (evs : List Event)
    (h : update_sync ro fuel stop cycleEnv upd = some evs) :
    evs.countP (fun e => e.2) = 1 ∧
    (∃ e, evs.getLast? = some e ∧ e.2 = true) ∧
    (∀ e ∈ evs.dropLast, e = ((none : Option GdepError), false)) := by
  cases ro with
  | false =>
    simp only [update_sync, Bool.false_eq_true, if_false, Option.some.injEq] at h
    subst h
    exact ⟨rfl, ⟨(none, true), rfl, rfl⟩, by simp⟩
  | true =>
    simp only [update_sync, if_true] at h
    rcases hrec : updateSyncLoop stop cycleEnv upd fuel 0 with - | ⟨l, er⟩ <;>
      rw [hrec] at h
    · simp at h
    · simp only [Option.map_some', Option.some.injEq] at h
      subst h
      have hl : ∀ e ∈ l, e = ((none : Option GdepError), false) :=
        updateSyncLoop_heartbeats stop cycleEnv upd fuel 0 l er hrec
      refine ⟨?_, ⟨(er, true), List.getLast?_concat l, rfl⟩, ?_⟩
      · rw [List.countP_append]
        have h0 : l.countP (fun e => e.2) = 0 := by
          rw [List.countP_eq_zero]
          intro a ha
          rw [hl a ha]
          simp
        rw [h0]
        simp [List.countP_cons]
      · rw [List.dropLast_concat]
        exact hl

/-- Witness for update_sync_terminal_last: one heartbeat, then the
terminal carrying UpdateErrorRepoAhead 1. -/
theorem update_sync_terminal_last_witness :
    ([((none : Option GdepError), false),
      (some (GdepError.UpdateErrorRepoAhead 1), true)] : List Event).countP (fun e => e.2) = 1 ∧
    (∃ e, ([((none : Option GdepError), false),
      (some (GdepError.UpdateErrorRepoAhead 1), true)] : List Event).getLast? = some e ∧
        e.2 = true) ∧
    (∀ e ∈ ([((none : Option GdepError), false),
      (some (GdepError.UpdateErrorRepoAhead 1), true)] : List Event).dropLast,
        e = ((none : Option GdepError), false)) :=
  update_sync_terminal_last true 2 (fun _ => false)
    (fun _ => ⟨.ok (), .ok (), .ok (), .ok (1, 0)⟩) (fun _ => .ok ()) _ (by decide)

/-- C10 (confirmed): when opening the repository fails, update_sync sends
exactly one event, the terminal (None, true) — no heartbeat and no error —
and this equals the trace of a clean stop (stop flag already set at the
first iteration): at the channel the two are indistinguishable. -/
theorem update_sync_open_failure_clean (fuel : Nat) (stop : Nat → Bool)
    (cycleEnv : Nat → CycleEnv) (upd : Nat → Except GitErr Unit) :
    update_sync false fuel stop cycleEnv upd = some [((none : Option GdepError), true)] ∧
    update_sync true (fuel+1) (fun _ => true) cycleEnv upd =
      some [((none : Option GdepError), true)] ∧
    update_sync false fuel stop cycleEnv upd =
      update_sync true (fuel+1) (fun _ => true) cycleEnv upd :=
  ⟨rfl, rfl, rfl⟩

/-- Outcome of one child.try_wait() poll, src/main.rs line 245: the call
itself may fail, or report the child still running, or report an exit
together with the status' success bit. -/
inductive PollRes
| err
| running
| exited (success : Bool)
deriving DecidableEq, Repr

/-- Environment of one supervised run: the events the updater puts on the
channel, in order, and the try_wait outcome of the i-th poll. -/
structure RunEnv where
  events : List Event
  polls : Nat → PollRes

/-- The receive loop of execute, src/main.rs lines 240-256: an initial
blocking recv, then, while the received event is not terminal, one child
poll per event — breaking with the recorded exit status when the child has
exited (or with none when try_wait fails, line 246-248) — and another recv.
Returns the final `(err, result)` pair.  The empty-events case models a
recv on a closed channel, which panics in the source and is unreachable
for traces that end in a terminal event. -/
def recvLoopGo : List Event → (Nat → PollRes) → Nat → Option GdepError × Option Bool
| [], _, _ => (none, none)
| (err, stop) :: rest, polls, i =>
  if stop then (err, none)
  else
    match polls i with
    | .err => (err, none)
    | .exited ok => (err, some ok)
    | .running => recvLoopGo rest polls (i+1)

/-- Receive loop from the first recv. -/
def recvLoop (events : List Event) (polls : Nat → PollRes) :
    Option GdepError × Option Bool :=
  recvLoopGo events polls 0

/-- The restart decision of execute, src/main.rs lines 218 and 258-268:
start from re_run; a recorded non-success exit status of the child and
exit_on_script_error clear it; a present updater error and
exit_on_gdep_error clear it. -/
def doRerunFinal (c : Config) (err : Option GdepError) (result : Option Bool) : Bool :=
  let d1 := c.re_run
  let d2 := match result with
    | some ok => if !ok then d1 && !c.exit_on_script_error else d1
    | none => d1
  if err.isSome then d2 && !c.exit_on_gdep_error else d2

/-- execute, src/main.rs lines 217-281, as the number of child-process
spawns it performs (line 232 spawns exactly one per call): run the receive
loop, decide do_rerun, and recurse (line 277) when it is set.  `env k` is
the environment of supervised run k; the result is `none` when the
recursion does not end within `fuel` runs. -/
def execute : Nat → Config → (Nat → RunEnv) → Nat → Option Nat
| 0, _, _, _ => none
| fuel+1, c, env, k =>
  match recvLoop (env k).events (env k).polls with
  | (err, result) =>
    if doRerunFinal c err result then
      (execute fuel c env (k+1)).map (fun n => n + 1)
    else some 1

/-- With a present updater error and exit_on_gdep_error set, do_rerun is
cleared whatever the other inputs are. -/
theorem doRerunFinal_of_err (c : Config) (hc : c.exit_on_gdep_error = true)
    (err : Option GdepError) (he : err.isSome = true) (result : Option Bool) :
    doRerunFinal c err result = false := by
  simp [doRerunFinal, he, hc]

/-- With re_run = false, do_rerun stays false on every path: both updates
are conjunctions with the previous value. -/
theorem doRerunFinal_of_no_rerun (c : Config) (hc : c.re_run = false)
    (err : Option GdepError) (result : Option Bool) :
    doRerunFinal c err result = false := by
  rcases result with - | ok
  · simp [doRerunFinal, hc]
  · rcases ok <;> simp [doRerunFinal, hc]

/-- C6 (confirmed): with re_run = false a supervised run performs exactly
one child-process spawn; the conjunction-only updates keep do_rerun false
on all paths, so execute never recurses. -/
theorem execute_single_spawn_when_final (c : Config) (env : Nat → RunEnv)
    (fuel k : Nat) (h : c.re_run = false) :
    execute (fuel+1) c env k = some 1 := by
  rcases hr : recvLoop (env k).events (env k).polls with ⟨err, result⟩
  simp [execute, hr, doRerunFinal_of_no_rerun c h]

/-- Config with re_run = false for the C6 witness. -/
def cfgC6 : Config := ⟨"x", false, false, false, false, "s", .Local "p", none⟩

/-- Run environment whose updater stops cleanly at once. -/
def envC6 : Nat → RunEnv := fun _ => ⟨[(none, true)], fun _ => .running⟩

/-- Witness for execute_single_spawn_when_final. -/
theorem execute_single_spawn_when_final_witness :
    execute 1 cfgC6 envC6 0 = some 1 :=
  execute_single_spawn_when_final cfgC6 envC6 0 0 rfl

/-- C1 (amended): with exit_on_gdep_error = true, whenever the receive
loop of run k ends with a non-Ok outcome actually received from the
updater — in particular when the non-Ok terminal event arrives before the
child's exit is observed — do_rerun is cleared and no run k+1 happens:
exactly one child is spawned from run k on. -/
theorem execute_gdep_error_received_stops (c : Config) (env : Nat → RunEnv)
    (fuel k : Nat) (hc : c.exit_on_gdep_error = true)
    (he : ((recvLoop (env k).events (env k).polls).1).isSome = true) :
    execute (fuel+1) c env k = some 1 := by
  rcases hr : recvLoop (env k).events (env k).polls with ⟨err, result⟩
  rw [hr] at he
  simp [execute, hr, doRerunFinal_of_err c hc err he]

/-- Config with re_run = true and exit_on_gdep_error = true, shared by the
C1 witness and counterexample scenarios. -/
def cfgC1 : Config := ⟨"x", true, false, false, true, "s", .Local "p", none⟩

/-- Run environment whose updater's first event is already the non-Ok
terminal, so the supervisor receives it. -/
def envC1A : Nat → RunEnv := fun _ =>
  ⟨[(some (GdepError.UpdateErrorRepoAhead 1), true)], fun _ => .running⟩

/-- Witness for execute_gdep_error_received_stops. -/
theorem execute_gdep_error_received_stops_witness :
    execute 1 cfgC1 envC1A 0 = some 1 :=
  execute_gdep_error_received_stops cfgC1 envC1A 0 0 rfl (by decide)

/-- Interleaving in which the child's exit is observed at the heartbeat,
before the updater's non-Ok terminal is received; run 1 then stops. -/
def envC1 : Nat → RunEnv := fun k =>
  if k = 0 then
    ⟨[(none, false), (some (GdepError.UpdateErrorRepoAhead 1), true)],
     fun _ => .exited true⟩
  else ⟨[(some (GdepError.UpdateErrorAheadBehind 1 1), true)], fun _ => .running⟩

/-- C1 (counterexample): the claim as stated fails on the code.  With
exit_on_gdep_error = true, the updater of run 0 emits a non-Ok terminal
event, yet two child processes are spawned: the supervisor's receive loop
(src/main.rs lines 244-256) breaks when the child's exit is observed at a
heartbeat, the terminal event is never received, err stays None at line
265, and do_rerun survives into a second run. -/
theorem execute_rerun_despite_emitted_terminal_error :
    cfgC1.exit_on_gdep_error = true ∧
    (some (GdepError.UpdateErrorRepoAhead 1), true) ∈ (envC1 0).events ∧
    execute 3 cfgC1 envC1 0 = some 2 := by
  decide

/-- The merged index as far as the source inspects it: only
`has_conflicts()` is consulted (src/main.rs line 149). -/
structure MergeIndex where
  has_conflicts : Bool
deriving DecidableEq, Repr

/-- Repository mutations merge_updates/perform_merge can perform; read-only
calls are not recorded. -/
inductive GitOp
| checkoutIndex
| setTarget (refname : String)
| createRef (refname : String)
| setHead (refname : String)
| checkoutHeadForce
| writeTree
| commit
| checkoutHead
deriving DecidableEq, Repr

/-- Environment of one perform_merge call (src/main.rs lines 139-162), one
field per fallible git call in source order.  Tree and commit ids never
influence the control flow, so value-producing reads are modelled as Unit
results. -/
structure MergeEnv where
  localTree : Except GitErr Unit
  remoteTree : Except GitErr Unit
  mergeBase : Except GitErr Unit
  ancestorTree : Except GitErr Unit
  mergeTrees : Except GitErr MergeIndex
  checkoutIndexRes : Except GitErr Unit
  writeTreeRes : Except GitErr Unit
  findTreeRes : Except GitErr Unit
  signatureRes : Except GitErr Unit
  findCommitLocal : Except GitErr Unit
  findCommitRemote : Except GitErr Unit
  commitRes : Except GitErr Unit
  checkoutHeadRes : Except GitErr Unit

/-- perform_merge, src/main.rs lines 139-162: result together with the
mutations performed.  On conflicts (line 149) the conflicted index is
checked out and the function returns Ok without committing; on a clean
merge a merge commit is created and HEAD checked out. -/
def perform_merge (env : MergeEnv) : Except GitErr Unit × List GitOp :=
  match env.localTree with
  | .error e => (.error e, [])
  | .ok _ =>
  match env.remoteTree with
  | .error e => (.error e, [])
  | .ok _ =>
  match env.mergeBase with
  | .error e => (.error e, [])
  | .ok _ =>
  match env.ancestorTree with
  | .error e => (.error e, [])
  | .ok _ =>
  match env.mergeTrees with
  | .error e => (.error e, [])
  | .ok index =>
  if index.has_conflicts then
    match env.checkoutIndexRes with
    | .error e => (.error e, [])
    | .ok _ => (.ok (), [GitOp.checkoutIndex])
  else
    match env.writeTreeRes with
    | .error e => (.error e, [])
    | .ok _ =>
    match env.findTreeRes with
    | .error e => (.error e, [GitOp.writeTree])
    | .ok _ =>
    match env.signatureRes with
    | .error e => (.error e, [GitOp.writeTree])
    | .ok _ =>
    match env.findCommitLocal with
    | .error e => (.error e, [GitOp.writeTree])
    | .ok _ =>
    match env.findCommitRemote with
    | .error e => (.error e, [GitOp.writeTree])
    | .ok _ =>
    match env.commitRes with
    | .error e => (.error e, [GitOp.writeTree])
    | .ok _ =>
    match env.checkoutHeadRes with
    | .error e => (.error e, [GitOp.writeTree, GitOp.commit])
    | .ok _ => (.ok (), [GitOp.writeTree, GitOp.commit, GitOp.checkoutHead])

/-- The three merge_analysis outcomes the source distinguishes,
src/main.rs lines 118 and 132: fast-forward, normal, and everything else
(which falls through to Ok). -/
inductive MergeAnalysisKind
| fastForward
| normal
| other
deriving DecidableEq, Repr

/-- Environment of one merge_updates call (src/main.rs lines 112-137). -/
structure UpdEnv where
  analysis : Except GitErr MergeAnalysisKind
  findRefOk : Bool
  setTargetRes : Except GitErr Unit
  createRefRes : Except GitErr Unit
  setHeadRes : Except GitErr Unit
  checkoutForceRes : Except GitErr Unit
  headRes : Except GitErr Unit
  mergeEnv : MergeEnv

/-- merge_updates, src/main.rs lines 112-137: fast-forward moves (or
creates) refs/heads/{branch}, sets HEAD and force-checks-out; the normal
case reads HEAD and delegates to perform_merge; anything else is Ok with
no mutation. -/
def merge_updates (env : UpdEnv) (remote_branch : String) :
    Except GitErr Unit × List GitOp :=
  match env.analysis with
  | .error e => (.error e, [])
  | .ok .fastForward =>
    let refname := "refs/heads/" ++ remote_branch
    if env.findRefOk then
      match env.setTargetRes with
      | .error e => (.error e, [])
      | .ok _ =>
      match env.setHeadRes with
      | .error e => (.error e, [GitOp.setTarget refname])
      | .ok _ =>
      match env.checkoutForceRes with
      | .error e => (.error e, [GitOp.setTarget refname, GitOp.setHead refname])
      | .ok _ =>
        (.ok (), [GitOp.setTarget refname, GitOp.setHead refname, GitOp.checkoutHeadForce])
    else
      match env.createRefRes with
      | .error e => (.error e, [])
      | .ok _ =>
      match env.setHeadRes with
      | .error e => (.error e, [GitOp.createRef refname])
      | .ok _ =>
      match env.checkoutForceRes with
      | .error e => (.error e, [GitOp.createRef refname, GitOp.setHead refname])
      | .ok _ =>
        (.ok (), [GitOp.createRef refname, GitOp.setHead refname, GitOp.checkoutHeadForce])
  | .ok .normal =>
    match env.headRes with
    | .error e => (.error e, [])
    | .ok _ => perform_merge env.mergeEnv
  | .ok .other => (.ok (), [])

/-- C7 (confirmed): a three-way merge whose merged index has conflicts
completes without error: the conflicted index is checked out into the
working directory, no merge commit is created, and the cycle's result is
Ok. -/
theorem merge_conflict_is_completion (env : UpdEnv) (branch : String)
    (idx : MergeIndex)
    (h1 : env.analysis = .ok .normal)
    (h2 : env.headRes = .ok ())
    (h3 : env.mergeEnv.localTree = .ok ())
    (h4 : env.mergeEnv.remoteTree = .ok ())
    (h5 : env.mergeEnv.mergeBase = .ok ())
    (h6 : env.mergeEnv.ancestorTree = .ok ())
    (h7 : env.mergeEnv.mergeTrees = .ok idx)
    (h8 : idx.has_conflicts = true)
    (h9 : env.mergeEnv.checkoutIndexRes = .ok ()) :
    (merge_updates env branch).1 = .ok () ∧
    GitOp.checkoutIndex ∈ (merge_updates env branch).2 ∧
    GitOp.commit ∉ (merge_updates env branch).2 := by
  have hres : merge_updates env branch = (.ok (), [GitOp.checkoutIndex]) := by
    simp [merge_updates, perform_merge, h1, h2, h3, h4, h5, h6, h7, h8, h9]
  rw [hres]
  refine ⟨rfl, List.mem_singleton.mpr rfl, ?_⟩
  simp

/-- Conflicted merge environment for the C7 witness. -/
def envC7 : UpdEnv :=
  { analysis := .ok .normal
    findRefOk := false
    setTargetRes := .ok ()
    createRefRes := .ok ()
    setHeadRes := .ok ()
    checkoutForceRes := .ok ()
    headRes := .ok ()
    mergeEnv :=
      { localTree := .ok ()
        remoteTree := .ok ()
        mergeBase := .ok ()
        ancestorTree := .ok ()
        mergeTrees := .ok ⟨true⟩
        checkoutIndexRes := .ok ()
        writeTreeRes := .ok ()
        findTreeRes := .ok ()
        signatureRes := .ok ()
        findCommitLocal := .ok ()
        findCommitRemote := .ok ()
        commitRes := .ok ()
        checkoutHeadRes := .ok () } }

/-- Witness for merge_conflict_is_completion. -/
theorem merge_conflict_is_completion_witness :
    (merge_updates envC7 "main").1 = .ok () ∧
    GitOp.checkoutIndex ∈ (merge_updates envC7 "main").2 ∧
    GitOp.commit ∉ (merge_updates envC7 "main").2 :=
  merge_conflict_is_completion envC7 "main" ⟨true⟩ rfl rfl rfl rfl rfl rfl rfl rfl rfl
